import Mathlib

/-!
Shallow embedding of the reservation availability and booking-conflict logic of
the `backend-booking-taranto` repository (`app/accounts/functions.py` and
`app/accounts/views.py`), together with proofs of the specification claims
about it.

Modelling conventions:

* A calendar date is modelled as an `Int`, its proleptic-Gregorian ordinal
  (Python `datetime.date.toordinal()`).  Python date comparison, and
  `date + timedelta(days=1)`, correspond exactly to `Int` comparison and `+ 1`.
  `strftime('%Y-%m-%d')` is injective on dates, so the Python *set of date
  strings* is the image of a set of dates under an injective map; membership
  tests are preserved.  We therefore model busy-date sets as `Finset Int`
  of date ordinals.  The callers of `is_room_available` build their datetime
  arguments at midnight from `YYYY-MM-DD` inputs, so `.date()` recovers the
  modelled date unchanged.
* Timestamps (`created_at`, `timezone.now()`) are modelled as `Int` minutes,
  since the only arithmetic on them is `current_time - timedelta(minutes=10)`.
* `Decimal` money fields are modelled as `ℚ`; the operations used
  (multiplication, division by 100, subtraction) are exact on the 2-decimal
  values stored, matching Python `Decimal` behaviour on these inputs.
* The ORM database is modelled as a `List Reservation` passed explicitly;
  external effects (Google Calendar calls, Stripe) are modelled by explicit
  parameters recording their outcome.
-/

/-- STATUS_RESERVATION values from `app/accounts/constants.py`. -/
inductive ReservationStatus where
  | UNPAID
  | PAID
  | CANCELED
deriving DecidableEq, Repr

export ReservationStatus (UNPAID PAID CANCELED)

/-- The fields of the `Room` model used by the availability and pricing
logic (`app/accounts/models.py`). -/
structure Room where
  id : Nat
  cost_per_night : ℚ
deriving DecidableEq, Repr

/-- The fields of the `Reservation` model used by the claims
(`app/accounts/models.py`).  `check_in`/`check_out` are `DateField`s
(date ordinals here), `created_at` a timestamp (minutes here),
`payment_intent_id` a `CharField` (blank when unset), `event_id` nullable. -/
structure Reservation where
  room : Room
  check_in : Int
  check_out : Int
  status : ReservationStatus
  total_cost : ℚ
  created_at : Int
  payment_intent_id : String
  event_id : Option String
  coupon_used : String
deriving DecidableEq, Repr

/-- The fields of the `Discount` model used by `calculate_discount`
(`app/accounts/models.py`): code, percentage, validity window,
minimum number of nights. -/
structure Discount where
  code : String
  discount : ℚ
  start_date : Int
  end_date : Int
  numbers_of_nights : Int
deriving DecidableEq, Repr

/-- The date-iteration pattern
`current = lo; while current < hi: yield current; current += 1`
used throughout `functions.py`: the list of dates `d` with `lo ≤ d < hi`. -/
def dateRange (lo hi : Int) : List Int :=
  (List.range (hi - lo).toNat).map (fun (i : Nat) => lo + (i : Int))

/-- `get_busy_dates_from_reservations(room, check_in, check_out)` from
`app/accounts/functions.py` (lines 717–738), with the ORM database and
`timezone.now()` made explicit.  It filters reservations of the room that
overlap the range (`check_out__gte=check_in`, `check_in__lte=check_out`),
excludes those with `status=UNPAID` created more than 10 minutes before
`current_time`, and collects every date `d` with
`reservation.check_in ≤ d < reservation.check_out` into a set. -/
def get_busy_dates_from_reservations (db : List Reservation) (room : Room)
    (check_in check_out : Int) (current_time : Int) : Finset Int :=
  let local_reservations := db.filter (fun r =>
    r.room.id == room.id &&
    check_in ≤ r.check_out &&
    r.check_in ≤ check_out &&
    !(r.status == UNPAID && r.created_at < current_time - 10))
  local_reservations.foldl
    (fun s r => s ∪ (dateRange r.check_in r.check_out).toFinset) ∅

/-- `is_room_available(busy_dates, check_in, check_out)` from
`app/accounts/functions.py` (lines 835–849): sets
`check_out_date = check_out - 1 day` (excluding the check-out date), then
scans `check_in ≤ current ≤ check_out_date` and returns `false` as soon as a
scanned date lies in `busy_dates`, else `true`. -/
def is_room_available (busy_dates : Finset Int) (check_in check_out : Int) : Bool :=
  let check_out_date := check_out - 1
  (dateRange check_in (check_out_date + 1)).all (fun d => decide (d ∉ busy_dates))

theorem mem_dateRange {lo hi d : Int} : d ∈ dateRange lo hi ↔ lo ≤ d ∧ d < hi := by
  unfold dateRange
  rw [List.mem_map]
  constructor
  · rintro ⟨i, hmem, rfl⟩
    rw [List.mem_range] at hmem
    omega
  · rintro ⟨h1, h2⟩
    exact ⟨(d - lo).toNat, List.mem_range.mpr (by omega), by omega⟩

theorem mem_foldl_union {α β : Type} [DecidableEq β] (f : α → Finset β)
    (l : List α) (init : Finset β) (b : β) :
    b ∈ l.foldl (fun s r => s ∪ f r) init ↔ b ∈ init ∨ ∃ r ∈ l, b ∈ f r := by
  induction l generalizing init with
  | nil => simp
  | cons x xs ih =>
    simp only [List.foldl_cons, ih, Finset.mem_union, List.mem_cons]
    constructor
    · rintro (⟨h | h⟩ | ⟨r, hr, hb⟩)
      · exact Or.inl h
      · exact Or.inr ⟨x, Or.inl rfl, h⟩
      · exact Or.inr ⟨r, Or.inr hr, hb⟩
    · rintro (h | ⟨r, rfl | hr, hb⟩)
      · exact Or.inl (Or.inl h)
      · exact Or.inl (Or.inr hb)
      · exact Or.inr ⟨r, hr, hb⟩

/-- A reservation passes the ORM filter of `get_busy_dates_from_reservations`:
same room, overlapping the queried range, and not an unpaid reservation
older than the 10-minute grace period. -/
def qualifies (room : Room) (check_in check_out current_time : Int)
    (r : Reservation) : Prop :=
  r.room.id = room.id ∧ check_in ≤ r.check_out ∧ r.check_in ≤ check_out ∧
    ¬(r.status = UNPAID ∧ r.created_at < current_time - 10)

instance (room : Room) (a b t : Int) (r : Reservation) :
    Decidable (qualifies room a b t r) := by
  unfold qualifies; infer_instance

theorem mem_get_busy_dates_from_reservations (db : List Reservation) (room : Room)
    (check_in check_out current_time d : Int) :
    d ∈ get_busy_dates_from_reservations db room check_in check_out current_time ↔
      ∃ r ∈ db, qualifies room check_in check_out current_time r ∧
        r.check_in ≤ d ∧ d < r.check_out := by
  unfold get_busy_dates_from_reservations
  rw [mem_foldl_union]
  simp only [Finset.not_mem_empty, false_or, List.mem_filter, List.mem_toFinset,
    mem_dateRange, qualifies]
  constructor
  · rintro ⟨r, ⟨hr, hcond⟩, hd1, hd2⟩
    refine ⟨r, hr, ?_, hd1, hd2⟩
    simp only [Bool.and_eq_true, beq_iff_eq, decide_eq_true_eq, Bool.not_eq_eq_eq_not,
      Bool.not_true, Bool.and_eq_false_iff, decide_eq_false_iff_not] at hcond
    obtain ⟨⟨⟨h1, h2⟩, h3⟩, h4⟩ := hcond
    refine ⟨h1, h2, h3, ?_⟩
    rintro ⟨hs, ht⟩
    rcases h4 with h4 | h4
    · rw [hs] at h4; simp at h4
    · exact absurd ht (by simpa using h4)
  · rintro ⟨r, hr, ⟨h1, h2, h3, h4⟩, hd1, hd2⟩
    refine ⟨r, ⟨hr, ?_⟩, hd1, hd2⟩
    simp only [Bool.and_eq_true, beq_iff_eq, decide_eq_true_eq, Bool.not_eq_eq_eq_not,
      Bool.not_true, Bool.and_eq_false_iff, decide_eq_false_iff_not]
    refine ⟨⟨⟨h1, h2⟩, h3⟩, ?_⟩
    by_cases hs : r.status = UNPAID
    · exact Or.inr (fun hlt => h4 ⟨hs, hlt⟩)
    · exact Or.inl (by simpa using hs)

theorem is_room_available_false_iff (busy_dates : Finset Int)
    (check_in check_out : Int) :
    is_room_available busy_dates check_in check_out = false ↔
      ∃ d, check_in ≤ d ∧ d < check_out ∧ d ∈ busy_dates := by
  unfold is_room_available
  simp only [Int.sub_add_cancel]
  rw [← Bool.not_eq_true, List.all_eq_true]
  simp only [decide_eq_true_eq, not_forall]
  constructor
  · rintro ⟨d, hd, hmem⟩
    rw [mem_dateRange] at hd
    exact ⟨d, hd.1, hd.2, not_not.mp hmem⟩
  · rintro ⟨d, h1, h2, h3⟩
    exact ⟨d, mem_dateRange.mpr ⟨h1, h2⟩, not_not.mpr h3⟩

/-- Claim C1: `is_room_available` returns `false` iff some date `d` with
`check_in ≤ d < check_out` (the check-out day itself excluded) is a member of
the busy-date set, and returns `true` otherwise. -/
theorem C1_is_room_available_false_iff (busy_dates : Finset Int)
    (check_in check_out : Int) :
    is_room_available busy_dates check_in check_out = false ↔
      ∃ d, check_in ≤ d ∧ d < check_out ∧ d ∈ busy_dates :=
  is_room_available_false_iff busy_dates check_in check_out

/-- Claim C2: the busy-date set computed from local reservations is exactly
the union, over every qualifying (non-excluded, overlapping) reservation in
the database, of the dates `d` with
`reservation.check_in ≤ d < reservation.check_out` (check-out date excluded);
no other dates are added. -/
theorem C2_busy_dates_exactly_union (db : List Reservation) (room : Room)
    (check_in check_out current_time : Int) :
    get_busy_dates_from_reservations db room check_in check_out current_time =
      ((db.filter (fun r =>
          decide (qualifies room check_in check_out current_time r))).toFinset).biUnion
        (fun r => (dateRange r.check_in r.check_out).toFinset) := by
  ext d
  rw [mem_get_busy_dates_from_reservations]
  simp only [Finset.mem_biUnion, List.mem_toFinset, List.mem_filter,
    decide_eq_true_eq, mem_dateRange]
  constructor
  · rintro ⟨r, hr, hq, h1, h2⟩
    exact ⟨r, ⟨hr, hq⟩, h1, h2⟩
  · rintro ⟨r, ⟨hr, hq⟩, h1, h2⟩
    exact ⟨r, hr, hq, h1, h2⟩

/-- Claim C3 counterexample: the claim states that a reservation with status
CANCELED contributes no dates to the busy set and cannot make the room
unavailable.  In `get_busy_dates_from_reservations` the only `exclude` clause
is `status=UNPAID AND created_at < now - 10 minutes`, so a CANCELED
reservation overlapping the range passes the filter: with a single CANCELED
reservation for the room on dates `[0, 3)`, date `0` is in the busy set and
`is_room_available` reports the room unavailable on the same range. -/
theorem C3_counterexample :
    let room : Room := ⟨1, 100⟩
    let r : Reservation := ⟨room, 0, 3, CANCELED, 300, 0, "", none, ""⟩
    let busy := get_busy_dates_from_reservations [r] room 0 3 10000
    (0 : Int) ∈ busy ∧ is_room_available busy 0 3 = false := by
  decide

/-- Claim C3 as amended: canceled reservations are NOT excluded when computing
the busy-date set from local reservations (the filter excludes only stale
unpaid reservations): every reservation of the room with status CANCELED that
overlaps the requested range contributes all its dates
`check_in ≤ d < check_out` to the busy set, and hence a canceled overlapping
reservation does make the room unavailable. -/
theorem C3_canceled_blocks (db : List Reservation) (room : Room)
    (check_in check_out current_time : Int) (r : Reservation) (d : Int)
    (hr : r ∈ db) (hroom : r.room.id = room.id) (hst : r.status = CANCELED)
    (hd1 : r.check_in ≤ d) (hd2 : d < r.check_out)
    (hd3 : check_in ≤ d) (hd4 : d < check_out) :
    d ∈ get_busy_dates_from_reservations db room check_in check_out current_time ∧
      is_room_available
        (get_busy_dates_from_reservations db room check_in check_out current_time)
        check_in check_out = false := by
  have hq : qualifies room check_in check_out current_time r := by
    refine ⟨hroom, by omega, by omega, ?_⟩
    rintro ⟨hs, _⟩
    rw [hst] at hs
    exact absurd hs (by simp)
  have hmem : d ∈ get_busy_dates_from_reservations db room check_in check_out
      current_time :=
    (mem_get_busy_dates_from_reservations db room check_in check_out
      current_time d).mpr ⟨r, hr, hq, hd1, hd2⟩
  exact ⟨hmem, (is_room_available_false_iff _ _ _).mpr ⟨d, hd3, hd4, hmem⟩⟩

/-- Witness for the amended claim C3 at a concrete input: one CANCELED
reservation for room 1 on dates `[0, 3)`, query range `[0, 3)`, date `0`. -/
theorem C3_canceled_blocks_witness :
    (0 : Int) ∈ get_busy_dates_from_reservations
        [⟨⟨1, 100⟩, 0, 3, CANCELED, 300, 0, "", none, ""⟩] ⟨1, 100⟩ 0 3 10000 ∧
      is_room_available
        (get_busy_dates_from_reservations
          [⟨⟨1, 100⟩, 0, 3, CANCELED, 300, 0, "", none, ""⟩] ⟨1, 100⟩ 0 3 10000)
        0 3 = false :=
  C3_canceled_blocks [⟨⟨1, 100⟩, 0, 3, CANCELED, 300, 0, "", none, ""⟩]
    ⟨1, 100⟩ 0 3 10000 ⟨⟨1, 100⟩, 0, 3, CANCELED, 300, 0, "", none, ""⟩ 0
    (by simp) rfl rfl (by decide) (by decide) (by decide) (by decide)

/-- Claim C4: if every reservation of the room overlapping the queried range
is unpaid and was created more than the 10-minute grace period before the
query time (in particular 20 minutes before), then the busy-date set from
local reservations blocks nothing in the range and the availability check
reports the room available. -/
theorem C4_stale_unpaid_room_available (db : List Reservation) (room : Room)
    (check_in check_out current_time : Int)
    (h : ∀ r ∈ db, r.room.id = room.id → check_in ≤ r.check_out →
      r.check_in ≤ check_out →
      r.status = UNPAID ∧ r.created_at < current_time - 10) :
    is_room_available
      (get_busy_dates_from_reservations db room check_in check_out current_time)
      check_in check_out = true := by
  by_contra hfalse
  rw [Bool.not_eq_true, is_room_available_false_iff] at hfalse
  obtain ⟨d, _, _, hmem⟩ := hfalse
  rw [mem_get_busy_dates_from_reservations] at hmem
  obtain ⟨r, hr, hq, _, _⟩ := hmem
  exact hq.2.2.2 (h r hr hq.1 hq.2.1 hq.2.2.1)

/-- Witness for claim C4: a single unpaid reservation created 20 minutes
before the query (`created_at = 9980`, `current_time = 10000`) on the queried
range `[0, 2)`; the room is reported available. -/
theorem C4_stale_unpaid_room_available_witness :
    is_room_available
      (get_busy_dates_from_reservations
        [⟨⟨1, 100⟩, 0, 2, UNPAID, 200, 9980, "", none, ""⟩] ⟨1, 100⟩ 0 2 10000)
      0 2 = true :=
  C4_stale_unpaid_room_available
    [⟨⟨1, 100⟩, 0, 2, UNPAID, 200, 9980, "", none, ""⟩] ⟨1, 100⟩ 0 2 10000
    (by decide)

/-- `calculate_total_cost(reservation)` from `app/accounts/functions.py`
(lines 510–525): `number_of_nights = (check_out - check_in).days`,
`total_cost = number_of_nights * room.cost_per_night`, stored on the
reservation and returned. -/
def calculate_total_cost (reservation : Reservation) : ℚ × Reservation :=
  let number_of_nights := reservation.check_out - reservation.check_in
  let total_cost := (number_of_nights : ℚ) * reservation.room.cost_per_night
  (total_cost, { reservation with total_cost := total_cost })

/-- `calculate_discount(reservation)` from `app/accounts/functions.py`
(lines 528–554), with the `Discount` table made explicit (`code` is a unique
field, so `Discount.objects.get(code=...)` is the first list match, and
`Discount.DoesNotExist` yields `None`).  If the reservation dates lie inside
the discount window and the stay meets the minimum nights, it subtracts
`total_cost * (discount / 100)` from the reservation's stored total cost and
returns the amount; otherwise it returns `None` and changes nothing. -/
def calculate_discount (discounts : List Discount) (reservation : Reservation) :
    Option ℚ × Reservation :=
  match discounts.find? (fun d => d.code == reservation.coupon_used) with
  | none => (none, reservation)
  | some discount =>
    if discount.start_date ≤ reservation.check_in ∧
        reservation.check_out ≤ discount.end_date then
      let number_of_nights := reservation.check_out - reservation.check_in
      if discount.numbers_of_nights ≤ number_of_nights then
        let discount_amount := reservation.total_cost * (discount.discount / 100)
        (some discount_amount,
         { reservation with total_cost := reservation.total_cost - discount_amount })
      else (none, reservation)
    else (none, reservation)

theorem calculate_discount_applies (ds : List Discount) (r : Reservation)
    (d : Discount) (hfind : ds.find? (fun x => x.code == r.coupon_used) = some d)
    (h1 : d.start_date ≤ r.check_in) (h2 : r.check_out ≤ d.end_date)
    (h3 : d.numbers_of_nights ≤ r.check_out - r.check_in) :
    calculate_discount ds r =
      (some (r.total_cost * (d.discount / 100)),
       { r with total_cost := r.total_cost - r.total_cost * (d.discount / 100) }) := by
  simp only [calculate_discount, hfind]
  rw [if_pos ⟨h1, h2⟩, if_pos h3]

theorem calculate_discount_rejects (ds : List Discount) (r : Reservation)
    (d : Discount) (hfind : ds.find? (fun x => x.code == r.coupon_used) = some d)
    (hneg : ¬(d.start_date ≤ r.check_in ∧ r.check_out ≤ d.end_date ∧
      d.numbers_of_nights ≤ r.check_out - r.check_in)) :
    calculate_discount ds r = (none, r) := by
  simp only [calculate_discount, hfind]
  by_cases hw : d.start_date ≤ r.check_in ∧ r.check_out ≤ d.end_date
  · rw [if_pos hw]
    have h3 : ¬ d.numbers_of_nights ≤ r.check_out - r.check_in :=
      fun h3 => hneg ⟨hw.1, hw.2, h3⟩
    rw [if_neg h3]
  · rw [if_neg hw]

/-- Claim C5 failing input: `calculate_discount` recomputes from the stored
`reservation.total_cost`, so a second application of the same 10-percent
discount to a reservation priced 300 subtracts again from 270: the total
becomes 243, not the 270 the claim requires; the second application changes
the total. -/
theorem C5_discount_reapplication_compounds :
    ((calculate_discount [⟨"SAVE10", 10, 0, 29, 3⟩]
        ⟨⟨1, 100⟩, 5, 8, UNPAID, 300, 0, "", none, "SAVE10"⟩).2).total_cost = 270 ∧
    ((calculate_discount [⟨"SAVE10", 10, 0, 29, 3⟩]
        ((calculate_discount [⟨"SAVE10", 10, 0, 29, 3⟩]
          ⟨⟨1, 100⟩, 5, 8, UNPAID, 300, 0, "", none, "SAVE10"⟩).2)).2).total_cost
      = 243 ∧
    (243 : ℚ) ≠ 270 := by
  have ha := calculate_discount_applies [⟨"SAVE10", 10, 0, 29, 3⟩]
    ⟨⟨1, 100⟩, 5, 8, UNPAID, 300, 0, "", none, "SAVE10"⟩
    ⟨"SAVE10", 10, 0, 29, 3⟩ rfl (by decide) (by decide) (by decide)
  have h270 : (300 : ℚ) - 300 * ((10 : ℚ) / 100) = 270 := by norm_num
  have hr1 : (calculate_discount [⟨"SAVE10", 10, 0, 29, 3⟩]
      ⟨⟨1, 100⟩, 5, 8, UNPAID, 300, 0, "", none, "SAVE10"⟩).2 =
      ⟨⟨1, 100⟩, 5, 8, UNPAID, 270, 0, "", none, "SAVE10"⟩ := by
    rw [ha]
    show (⟨⟨1, 100⟩, 5, 8, UNPAID, (300 : ℚ) - 300 * ((10 : ℚ) / 100), 0, "",
      none, "SAVE10"⟩ : Reservation) = _
    rw [h270]
  have hb := calculate_discount_applies [⟨"SAVE10", 10, 0, 29, 3⟩]
    ⟨⟨1, 100⟩, 5, 8, UNPAID, 270, 0, "", none, "SAVE10"⟩
    ⟨"SAVE10", 10, 0, 29, 3⟩ rfl (by decide) (by decide) (by decide)
  refine ⟨by rw [hr1], ?_, by norm_num⟩
  rw [hr1, hb]
  show (270 : ℚ) - 270 * ((10 : ℚ) / 100) = 243
  norm_num

/-- Claim C8: with the discount looked up by the reservation's code, the
discount is applied iff the check-in is on or after the discount's start
date, the check-out on or before its end date, and the number of nights at
least the minimum; when applied the returned amount is
`total_cost * (discount / 100)` and the stored total is reduced by exactly
that amount; otherwise no amount is returned and the reservation is
unchanged. -/
theorem C8_calculate_discount_iff (ds : List Discount) (r : Reservation)
    (d : Discount) (hfind : ds.find? (fun x => x.code == r.coupon_used) = some d) :
    ((d.start_date ≤ r.check_in ∧ r.check_out ≤ d.end_date ∧
        d.numbers_of_nights ≤ r.check_out - r.check_in) →
      calculate_discount ds r =
        (some (r.total_cost * (d.discount / 100)),
         { r with total_cost := r.total_cost - r.total_cost * (d.discount / 100) }))
    ∧ (¬(d.start_date ≤ r.check_in ∧ r.check_out ≤ d.end_date ∧
        d.numbers_of_nights ≤ r.check_out - r.check_in) →
      calculate_discount ds r = (none, r)) :=
  ⟨fun h => calculate_discount_applies ds r d hfind h.1 h.2.1 h.2.2,
   fun h => calculate_discount_rejects ds r d hfind h⟩

/-- Witness for claim C8, end-to-end scenario 2: a 10-percent discount valid
on dates `[0, 29]` with a 3-night minimum; a 3-night reservation priced 300
inside the window gets amount 30 and new total 270; a 2-night reservation is
rejected unchanged. -/
theorem C8_calculate_discount_iff_witness :
    calculate_discount [⟨"JUNE10", 10, 0, 29, 3⟩]
        ⟨⟨1, 100⟩, 4, 7, UNPAID, 300, 0, "", none, "JUNE10"⟩ =
      (some 30,
       { room := ⟨1, 100⟩, check_in := 4, check_out := 7, status := UNPAID,
         total_cost := 270, created_at := 0, payment_intent_id := "",
         event_id := none, coupon_used := "JUNE10" }) ∧
    calculate_discount [⟨"JUNE10", 10, 0, 29, 3⟩]
        ⟨⟨1, 100⟩, 4, 6, UNPAID, 200, 0, "", none, "JUNE10"⟩ =
      (none, ⟨⟨1, 100⟩, 4, 6, UNPAID, 200, 0, "", none, "JUNE10"⟩) := by
  constructor
  · have h := (C8_calculate_discount_iff [⟨"JUNE10", 10, 0, 29, 3⟩]
      ⟨⟨1, 100⟩, 4, 7, UNPAID, 300, 0, "", none, "JUNE10"⟩
      ⟨"JUNE10", 10, 0, 29, 3⟩ rfl).1 (by decide)
    rw [h]
    simp only [Prod.mk.injEq, Option.some.injEq, Reservation.mk.injEq]
    norm_num
  · exact (C8_calculate_discount_iff [⟨"JUNE10", 10, 0, 29, 3⟩]
      ⟨⟨1, 100⟩, 4, 6, UNPAID, 200, 0, "", none, "JUNE10"⟩
      ⟨"JUNE10", 10, 0, 29, 3⟩ rfl).2 (by decide)

/-- Claim C9: for a reservation with `check_in < check_out`, the number of
nights `(check_out - check_in).days` is positive and `calculate_total_cost`
returns, and stores on the reservation, `nights * room.cost_per_night`. -/
theorem C9_calculate_total_cost (r : Reservation) (h : r.check_in < r.check_out) :
    0 < r.check_out - r.check_in ∧
      (calculate_total_cost r).1 =
        ((r.check_out - r.check_in : Int) : ℚ) * r.room.cost_per_night ∧
      (calculate_total_cost r).2.total_cost =
        ((r.check_out - r.check_in : Int) : ℚ) * r.room.cost_per_night :=
  ⟨by omega, rfl, rfl⟩

/-- Witness for claim C9, end-to-end scenario 1: a 3-night stay (dates `0` to
`3`) in a room costing 100 per night is priced 300. -/
theorem C9_calculate_total_cost_witness :
    (0 : Int) < 3 - 0 ∧
      (calculate_total_cost ⟨⟨1, 100⟩, 0, 3, UNPAID, 0, 0, "", none, ""⟩).2.total_cost
        = 300 := by
  have h := C9_calculate_total_cost ⟨⟨1, 100⟩, 0, 3, UNPAID, 0, 0, "", none, ""⟩
    (by decide)
  refine ⟨h.1, ?_⟩
  rw [h.2.2]
  norm_num

/-- A DRF `Response`: HTTP status code and the payload. -/
structure HttpResponse where
  status_code : Nat
  body : String
deriving DecidableEq, Repr

/-- Replace the first element satisfying `p` (the ORM `save()` of the single
row fetched by its unique lookup). -/
def updateFirst {α : Type} (p : α → Bool) (f : α → α) : List α → List α
  | [] => []
  | x :: xs => if p x then f x :: xs else x :: updateFirst p f xs

/-- `handle_checkout_session_completed(session)` from
`app/accounts/functions.py` (lines 305–340), with the database and the
outcome of the Google Calendar insertion (`some event_id` on success, `none`
when obtaining the service or inserting the event raises) made explicit.

The lookup is `get_object_or_404(Reservation, payment_intent_id=session_id)`.
When nothing matches, `get_object_or_404` raises `Http404`, which is *not*
`Reservation.DoesNotExist`; the `except Reservation.DoesNotExist` branch that
would return 404 `{"error": "Reservation not found"}` is unreachable, and the
generic `except Exception` branch returns 500 with `str(e)`
(`"No Reservation matches the given query."`), mutating nothing.

On a match: `payment_intent_id` is reassigned in memory, the calendar insert
runs (on failure nothing was saved, so the stored row is unchanged and the
generic handler returns 500); on success `add_reservation_to_google_calendars`
saves the event id, then status is set to PAID and saved, the confirmation
emails swallow their own errors, and 200 `{'status': 'success'}` is
returned. -/
def handle_checkout_session_completed (db : List Reservation)
    (session_id payment_intent : String) (calendar : Option String) :
    List Reservation × HttpResponse :=
  match db.find? (fun r => r.payment_intent_id == session_id) with
  | none => (db, ⟨500, "No Reservation matches the given query."⟩)
  | some reservation =>
    match calendar with
    | none => (db, ⟨500, "Failed to add reservation to Google Calendars"⟩)
    | some event_id =>
      let updated := { reservation with
        payment_intent_id := payment_intent,
        event_id := some event_id,
        status := PAID }
      (updateFirst (fun r => r.payment_intent_id == session_id)
        (fun _ => updated) db,
       ⟨200, "success"⟩)

/-- `StripeWebhook.post` from `app/accounts/views.py` (lines 813–841), after
successful signature verification: it dispatches
`checkout.session.completed` to `handle_checkout_session_completed`, but
*discards* that handler's returned `Response` and always answers
200 `{'status': 'success'}`. -/
def StripeWebhook_post (db : List Reservation)
    (event_type session_id payment_intent : String) (calendar : Option String) :
    List Reservation × HttpResponse :=
  if event_type == "checkout.session.completed" then
    let result := handle_checkout_session_completed db session_id payment_intent calendar
    (result.1, ⟨200, "success"⟩)
  else
    (db, ⟨200, "success"⟩)

/-- Claim C6 failing input: a `checkout.session.completed` event whose
session id (`"cs_unknown"`) matches no stored reservation.  No reservation is
mutated (that part of the claim holds), but the response is not the claimed
404: the handler's internal response is 500 (the `Http404` raised by
`get_object_or_404` is caught by the generic `except Exception`, the
`except Reservation.DoesNotExist` → 404 branch being unreachable), and the
webhook endpoint discards even that and answers 200. -/
theorem C6_webhook_unknown_session :
    (handle_checkout_session_completed
        [⟨⟨1, 100⟩, 0, 3, UNPAID, 300, 0, "pi_existing", none, ""⟩]
        "cs_unknown" "pi_new" none).2 =
      ⟨500, "No Reservation matches the given query."⟩ ∧
    (handle_checkout_session_completed
        [⟨⟨1, 100⟩, 0, 3, UNPAID, 300, 0, "pi_existing", none, ""⟩]
        "cs_unknown" "pi_new" none).1 =
      [⟨⟨1, 100⟩, 0, 3, UNPAID, 300, 0, "pi_existing", none, ""⟩] ∧
    (StripeWebhook_post
        [⟨⟨1, 100⟩, 0, 3, UNPAID, 300, 0, "pi_existing", none, ""⟩]
        "checkout.session.completed" "cs_unknown" "pi_new" none).2.status_code
      = 200 ∧
    (StripeWebhook_post
        [⟨⟨1, 100⟩, 0, 3, UNPAID, 300, 0, "pi_existing", none, ""⟩]
        "checkout.session.completed" "cs_unknown" "pi_new" none).1 =
      [⟨⟨1, 100⟩, 0, 3, UNPAID, 300, 0, "pi_existing", none, ""⟩] := by
  refine ⟨rfl, rfl, rfl, rfl⟩

/-- The persisted outcome of `cancel_reservation_and_remove_event`:
the reservation row after the call and the raised exception, if any. -/
structure CancelResult where
  reservation : Reservation
  error : Option String
deriving DecidableEq, Repr

/-- `cancel_reservation_and_remove_event(reservation)` from
`app/accounts/functions.py` (lines 480–507), with the outcomes of the two
external steps made explicit: `credentials_ok` is whether
`get_google_calendar_service()` finds credentials, `delete_ok` whether the
calendar-event deletion call succeeds.  If there is no `event_id`, or the
deletion raises, the function raises (re-wrapped by its `except` clauses) and
the reservation is not saved; only after a successful deletion is the status
set to CANCELED and saved (the notification helpers swallow their own
errors). -/
def cancel_reservation_and_remove_event (reservation : Reservation)
    (credentials_ok delete_ok : Bool) : CancelResult :=
  if credentials_ok then
    match reservation.event_id with
    | some _ =>
      if delete_ok then
        { reservation := { reservation with status := CANCELED }, error := none }
      else
        { reservation := reservation,
          error := some "Failed to remove event from Google Calendar" }
    | none =>
      { reservation := reservation,
        error := some "Failed to remove event from Google Calendar: No event_id found for this reservation." }
  else
    { reservation := reservation,
      error := some "Google Calendar credentials not found." }

/-- Claim C7: cancellation is atomic with respect to calendar-event removal:
if the reservation has no stored calendar event id or the external deletion
fails, the operation raises an error and the reservation row is left
unchanged (in particular its status is not set to CANCELED); and whenever the
operation does not raise, the deletion succeeded, an event id was present,
and the only change is the status becoming CANCELED. -/
theorem C7_cancel_atomic (r : Reservation) (credentials_ok delete_ok : Bool) :
    ((r.event_id = none ∨ credentials_ok = false ∨ delete_ok = false) →
      (cancel_reservation_and_remove_event r credentials_ok delete_ok).error.isSome
          = true ∧
        (cancel_reservation_and_remove_event r credentials_ok delete_ok).reservation
          = r) ∧
    ((cancel_reservation_and_remove_event r credentials_ok delete_ok).error = none →
      credentials_ok = true ∧ delete_ok = true ∧ r.event_id.isSome = true ∧
        (cancel_reservation_and_remove_event r credentials_ok delete_ok).reservation
          = { r with status := CANCELED }) := by
  unfold cancel_reservation_and_remove_event
  cases credentials_ok with
  | false => simp
  | true =>
    cases he : r.event_id with
    | none => simp
    | some e =>
      cases delete_ok with
      | false => simp
      | true => simp

/-- Witness for claim C7: a reservation without an event id raises and stays
unchanged; one with an event id and a successful deletion is persisted as
CANCELED with no error. -/
theorem C7_cancel_atomic_witness :
    ((cancel_reservation_and_remove_event
        ⟨⟨1, 100⟩, 0, 3, PAID, 300, 0, "pi", none, ""⟩ true true).error.isSome
        = true ∧
      (cancel_reservation_and_remove_event
        ⟨⟨1, 100⟩, 0, 3, PAID, 300, 0, "pi", none, ""⟩ true true).reservation
        = ⟨⟨1, 100⟩, 0, 3, PAID, 300, 0, "pi", none, ""⟩) ∧
    ((cancel_reservation_and_remove_event
        ⟨⟨1, 100⟩, 0, 3, PAID, 300, 0, "pi", some "ev", ""⟩ true true).reservation
        = ⟨⟨1, 100⟩, 0, 3, CANCELED, 300, 0, "pi", some "ev", ""⟩) := by
  refine ⟨(C7_cancel_atomic ⟨⟨1, 100⟩, 0, 3, PAID, 300, 0, "pi", none, ""⟩
    true true).1 (Or.inl rfl), ?_⟩
  exact ((C7_cancel_atomic ⟨⟨1, 100⟩, 0, 3, PAID, 300, 0, "pi", some "ev", ""⟩
    true true).2 rfl).2.2.2

/-- The reservation-creation endpoint `RentRoomAPI.post` from
`app/accounts/views.py` (lines 897–965), after serializer validation, with
the database, the Google-Calendar service availability and the calendar
events-list outcome made explicit.  `validated` is the reservation built from
the validated request data (its room and dates are the requested ones).  The
local conflict check filters `room=room, check_in__lt=check_out,
check_out__gt=check_in` with **no** status or grace-period exclusion; on any
match it returns 400 and persists nothing.  Otherwise it consults the
calendar, and only then prices (`calculate_total_cost`) and saves the new
reservation. -/
def RentRoomAPI_post (db : List Reservation) (room : Room)
    (check_in check_out : Int) (service_ok : Bool)
    (calendar_events : Except String (List String)) (validated : Reservation) :
    List Reservation × HttpResponse :=
  let conflicting_reservations := db.filter (fun r =>
    r.room.id == room.id &&
    decide (r.check_in < check_out) &&
    decide (r.check_out > check_in))
  if !conflicting_reservations.isEmpty then
    (db, ⟨400, "Room is not available for the selected dates."⟩)
  else if !service_ok then
    (db, ⟨500, "Google Calendar service unavailable."⟩)
  else
    match calendar_events with
    | .error e => (db, ⟨500, e⟩)
    | .ok events =>
      if !events.isEmpty then
        (db, ⟨400, "Room is not available for the selected dates due to existing Google Calendar events."⟩)
      else
        (db ++ [(calculate_total_cost validated).2], ⟨201, "created"⟩)

/-- Claim C10: the creation endpoint's local conflict check applies no status
exclusion: whenever the database holds any reservation of the requested room
— of any status, canceled or stale-unpaid included — with
`check_in < requested check_out` and `check_out > requested check_in`,
creation answers 400 and the database is unchanged, whatever the calendar
service would have said. -/
theorem C10_conflict_check_ignores_status (db : List Reservation) (room : Room)
    (check_in check_out : Int) (service_ok : Bool)
    (calendar_events : Except String (List String)) (validated : Reservation)
    (r : Reservation) (hr : r ∈ db) (hroom : r.room.id = room.id)
    (h1 : r.check_in < check_out) (h2 : r.check_out > check_in) :
    RentRoomAPI_post db room check_in check_out service_ok calendar_events
        validated =
      (db, ⟨400, "Room is not available for the selected dates."⟩) := by
  have hmem : r ∈ db.filter (fun x =>
      x.room.id == room.id &&
      decide (x.check_in < check_out) &&
      decide (x.check_out > check_in)) := by
    rw [List.mem_filter]
    refine ⟨hr, ?_⟩
    simp [hroom, h1, h2]
  have hne : (db.filter (fun x =>
      x.room.id == room.id &&
      decide (x.check_in < check_out) &&
      decide (x.check_out > check_in))).isEmpty = false := by
    rw [List.isEmpty_eq_false]
    exact List.ne_nil_of_mem hmem
  simp only [RentRoomAPI_post]
  rw [hne]
  rfl

/-- Witness for claim C10: the only stored reservation for the room is
CANCELED (and would be excluded by the availability calculator), yet creation
on an overlapping range is rejected with 400 and nothing is persisted. -/
theorem C10_conflict_check_ignores_status_witness :
    RentRoomAPI_post [⟨⟨1, 100⟩, 0, 3, CANCELED, 300, 0, "", none, ""⟩]
        ⟨1, 100⟩ 0 3 true (Except.ok [])
        ⟨⟨1, 100⟩, 0, 3, UNPAID, 0, 0, "", none, ""⟩ =
      ([⟨⟨1, 100⟩, 0, 3, CANCELED, 300, 0, "", none, ""⟩],
       ⟨400, "Room is not available for the selected dates."⟩) :=
  C10_conflict_check_ignores_status
    [⟨⟨1, 100⟩, 0, 3, CANCELED, 300, 0, "", none, ""⟩] ⟨1, 100⟩ 0 3 true
    (Except.ok []) ⟨⟨1, 100⟩, 0, 3, UNPAID, 0, 0, "", none, ""⟩
    ⟨⟨1, 100⟩, 0, 3, CANCELED, 300, 0, "", none, ""⟩ (by simp) rfl
    (by decide) (by decide)
